import Mathlib

/-!
Shallow embedding of the vortex ephemeral-VM orchestrator core
(`vortex-core/src/vm.rs`, `src/core/session.rs`, `src/core/templates.rs`,
`src/core/workspace.rs`, `src/core/backend.rs`).

Rust HashMaps are modelled as association lists with replace-on-insert
semantics; timestamps (`Utc::now()`) and randomly generated ids are passed
in as explicit parameters; backend child-process invocations are passed in
as explicit `Except` results.  Each lifecycle operation returns, besides the
Rust return value, the updated registry/session map, the list of events
emitted through `emit_event`, and a flag recording whether the backend
operation was actually invoked.
-/

set_option autoImplicit false

/-- Association-list lookup, mirroring `HashMap::get` (keys are unique). -/
def lookupA {κ α : Type} [DecidableEq κ] (m : List (κ × α)) (k : κ) : Option α :=
  match m with
  | [] => none
  | (k₁, v) :: t => if k₁ = k then some v else lookupA t k

/-- Association-list insert, mirroring `HashMap::insert` (replace or append). -/
def insertA {κ α : Type} [DecidableEq κ] (m : List (κ × α)) (k : κ) (v : α) :
    List (κ × α) :=
  match m with
  | [] => [(k, v)]
  | (k₁, v₁) :: t => if k₁ = k then (k, v) :: t else (k₁, v₁) :: insertA t k v

/-- Association-list removal, mirroring `HashMap::remove` (keys are unique). -/
def eraseA {κ α : Type} [DecidableEq κ] (m : List (κ × α)) (k : κ) :
    List (κ × α) :=
  match m with
  | [] => []
  | (k₁, v₁) :: t => if k₁ = k then t else (k₁, v₁) :: eraseA t k

/-- Error taxonomy from `error.rs` (`VortexError`), restricted to the variants
constructed by the modelled code paths. -/
inductive VortexError : Type where
  | vmError (message : String)
  | backendUnavailable (backend : String)
  | invalidInput (field message : String)
  | resourceLimitExceeded (resource : String)
  | templateNotFound (name : String)
  | templateExists (name : String)
  deriving DecidableEq, BEq

/-- The `thiserror` `Display` strings of `VortexError` (`#[error("...")]`). -/
def VortexError.display : VortexError → String
  | .vmError m => "VM operation failed: " ++ m
  | .backendUnavailable b => "Backend not available: " ++ b
  | .invalidInput f m => "Invalid input: " ++ f ++ " - " ++ m
  | .resourceLimitExceeded r => "Resource limit exceeded: " ++ r
  | .templateNotFound n => "Template not found: " ++ n
  | .templateExists n => "Template already exists: " ++ n

/-- `VmState` from `vortex-core/src/vm.rs`. -/
inductive VmState : Type where
  | creating
  | running
  | paused
  | stopped
  | error (message : String)
  | snapshotting
  | restoring
  deriving DecidableEq, BEq

/-- `VmEvent` from `vortex-core/src/vm.rs`.  The `ResourceUsage{cpu: f64, ...}`
variant is omitted: it carries a floating-point payload and is never
constructed by any modelled operation. -/
inductive VmEvent : Type where
  | created (vm_id : String)
  | started (vm_id : String)
  | stopped (vm_id : String)
  | error (vm_id : String) (error : String)
  | snapshotCreated (vm_id : String) (snapshot_id : String)
  deriving DecidableEq, BEq

/-- The terminal lifecycle events (`Started`, `Stopped`, `Error`). -/
def VmEvent.isTerminal : VmEvent → Bool
  | .started _ => true
  | .stopped _ => true
  | .error _ _ => true
  | _ => false

/-- Number of terminal events in an emitted event list. -/
def countTerminal (evs : List VmEvent) : Nat :=
  (evs.filter VmEvent.isTerminal).length

/-- `ResourceLimits` from `vortex-core/src/vm.rs`. -/
structure ResourceLimits : Type where
  max_memory : Option Nat
  max_cpus : Option Nat
  max_disk : Option Nat
  timeout_seconds : Option Nat
  deriving DecidableEq, BEq

/-- `ResourceLimits::default()`: all caps absent. -/
def ResourceLimits.default : ResourceLimits :=
  ⟨none, none, none, none⟩

/-- `VmSpec`.  `memory`/`cpus` are `u32`, ports are `u16` pairs; the modelled
operations never overflow them, so they are carried as `Nat`.  Paths are
carried as strings.  The `src/core` flavour of `VmSpec` additionally has a
`backend: Option<String>` field (set to `None` by `template_to_vm_spec`);
it is carried here on the single unified structure. -/
structure VmSpec : Type where
  image : String
  memory : Nat
  cpus : Nat
  ports : List (Nat × Nat)
  volumes : List (String × String)
  environment : List (String × String)
  command : Option String
  labels : List (String × String)
  network_config : Option String
  resource_limits : ResourceLimits
  backend : Option String
  deriving DecidableEq, BEq

/-- `VmInstance` minus the `Arc<dyn Backend>` handle (backend behaviour is
passed to each operation as an explicit result parameter). -/
structure VmInstance : Type where
  id : String
  spec : VmSpec
  state : VmState
  created_at : Nat
  updated_at : Nat
  deriving DecidableEq, BEq

/-- `VmManager::validate_spec`: memory > 0, cpus > 0, and the optional
`resource_limits.max_memory` cap. -/
def validate_spec (spec : VmSpec) : Except VortexError Unit :=
  if spec.memory = 0 then
    .error (.invalidInput "memory" "Memory must be greater than 0")
  else if spec.cpus = 0 then
    .error (.invalidInput "cpus" "CPUs must be greater than 0")
  else
    match spec.resource_limits.max_memory with
    | some max_memory =>
      if spec.memory > max_memory then
        .error (.resourceLimitExceeded
          ("memory: " ++ toString spec.memory ++ " > " ++ toString max_memory))
      else .ok ()
    | none => .ok ()

deriving instance DecidableEq for Except

deriving instance BEq for Except

/-- Outcome of `VmManager::create`: the returned value, the registry after the
call, the events emitted, and whether `backend.create` was invoked. -/
structure CreateOutcome : Type where
  result : Except VortexError VmInstance
  registry : List (String × VmInstance)
  events : List VmEvent
  backendCreateCalled : Bool
  deriving DecidableEq, BEq

/-- `VmManager::create`.  `vm_id` stands for the freshly generated id,
`backendAvailable` for whether `backend_provider.get_backend()` succeeds,
`backendCreate` for the result of `vm.backend.create(&vm)`, and `now` for
`Utc::now()`. -/
def VmManager.create (registry : List (String × VmInstance)) (spec : VmSpec)
    (vm_id : String) (backendAvailable : Bool)
    (backendCreate : Except VortexError Unit) (now : Nat) : CreateOutcome :=
  if ¬ backendAvailable then
    ⟨.error (.backendUnavailable "none available"), registry, [], false⟩
  else
    match validate_spec spec with
    | .error e => ⟨.error e, registry, [], false⟩
    | .ok _ =>
      let vm : VmInstance := ⟨vm_id, spec, .creating, now, now⟩
      let reg₁ := insertA registry vm_id vm
      match backendCreate with
      | .ok _ =>
        let updated := { vm with state := .running, updated_at := now }
        ⟨.ok updated, insertA reg₁ vm_id updated,
          [.created vm_id, .started vm_id], true⟩
      | .error e =>
        let failed := { vm with state := .error e.display }
        ⟨.error e, insertA reg₁ vm_id failed,
          [.error vm_id e.display], true⟩

/-- The minimal `VmSpec` synthesized by `stop`/`cleanup`/`list` when a VM is
known only from the backend inventory (`image: "unknown"`, 512 MiB, 1 cpu). -/
def unknownSpec : VmSpec :=
  ⟨"unknown", 512, 1, [], [], [], none, [], none, ResourceLimits.default, none⟩

/-- The minimal `VmInstance` synthesized by `stop`/`cleanup` for a VM id found
only in the backend inventory (state defaulted to `Running`). -/
def synthesizedVm (vm_id : String) (now : Nat) : VmInstance :=
  ⟨vm_id, unknownSpec, .running, now, now⟩

/-- Outcome of `VmManager::stop`. -/
structure StopOutcome : Type where
  result : Except VortexError Unit
  registry : List (String × VmInstance)
  events : List VmEvent
  backendStopCalled : Bool
  deriving DecidableEq, BEq

/-- `VmManager::stop`.  `inventory` stands for the (successful) result of
`backend.list_vms()`, consulted only when the id is not in the in-memory
registry; `backendStop` for the result of `vm.backend.stop(&vm)`. -/
def VmManager.stop (registry : List (String × VmInstance)) (vm_id : String)
    (backendAvailable : Bool) (inventory : List String)
    (backendStop : Except VortexError Unit) (now : Nat) : StopOutcome :=
  let vmFound : Except VortexError VmInstance :=
    match lookupA registry vm_id with
    | some vm => .ok vm
    | none =>
      if ¬ backendAvailable then .error (.backendUnavailable "none available")
      else if vm_id ∈ inventory then .ok (synthesizedVm vm_id now)
      else .error (.vmError ("VM " ++ vm_id ++ " not found"))
  match vmFound with
  | .error e => ⟨.error e, registry, [], false⟩
  | .ok vm =>
    match backendStop with
    | .error e => ⟨.error e, registry, [], true⟩
    | .ok _ =>
      let updated := { vm with state := .stopped, updated_at := now }
      ⟨.ok (), insertA registry vm_id updated, [.stopped vm_id], true⟩

/-- Outcome of `VmManager::cleanup`. -/
structure CleanupOutcome : Type where
  result : Except VortexError Unit
  registry : List (String × VmInstance)
  events : List VmEvent
  backendCleanupCalled : Bool
  deriving DecidableEq, BEq

/-- `VmManager::cleanup`.  The in-memory record is removed (`instances.remove`)
before the backend is consulted; `backendCleanup` stands for the result of
`vm.backend.cleanup(&vm)`.  No event is emitted on any path. -/
def VmManager.cleanup (registry : List (String × VmInstance)) (vm_id : String)
    (backendAvailable : Bool) (inventory : List String)
    (backendCleanup : Except VortexError Unit) (now : Nat) : CleanupOutcome :=
  let removed := lookupA registry vm_id
  let reg₁ := eraseA registry vm_id
  let vmFound : Except VortexError VmInstance :=
    match removed with
    | some vm => .ok vm
    | none =>
      if ¬ backendAvailable then .error (.backendUnavailable "none available")
      else if vm_id ∈ inventory then .ok (synthesizedVm vm_id now)
      else .error (.vmError ("VM " ++ vm_id ++ " not found"))
  match vmFound with
  | .error e => ⟨.error e, reg₁, [], false⟩
  | .ok _ =>
    match backendCleanup with
    | .error e => ⟨.error e, reg₁, [], true⟩
    | .ok _ => ⟨.ok (), reg₁, [], true⟩

/-- `VmManager::attach`: requires the VM to exist in the in-memory registry,
then delegates to the backend's blocking `attach` (passed in as a result). -/
def VmManager.attach (registry : List (String × VmInstance)) (vm_id : String)
    (backendAttach : Except VortexError Unit) : Except VortexError Unit :=
  match lookupA registry vm_id with
  | some _ => backendAttach
  | none => .error (.vmError ("VM " ++ vm_id ++ " not found"))

/-- `SessionState` from `src/core/session.rs`. -/
inductive SessionState : Type where
  | creating
  | running
  | detached
  | attached (client_pid : Nat)
  | paused
  | stopped
  | error (message : String)
  deriving DecidableEq, BEq

/-- The derived Rust `Debug` rendering of a `SessionState`, used in the
`{:?}`-formatted error messages (inner quotes of an `Error` message are not
re-escaped). -/
def SessionState.debugFmt : SessionState → String
  | .creating => "Creating"
  | .running => "Running"
  | .detached => "Detached"
  | .attached pid => "Attached \x7b client_pid: " ++ toString pid ++ " \x7d"
  | .paused => "Paused"
  | .stopped => "Stopped"
  | .error m => "Error \x7b message: \"" ++ m ++ "\" \x7d"

/-- `VmSession` from `src/core/session.rs` (timestamps as `Nat`). -/
structure VmSession : Type where
  id : String
  name : Option String
  vm_id : String
  state : SessionState
  created_at : Nat
  last_attached : Option Nat
  persistent : Bool
  spec : VmSpec
  metadata : List (String × String)
  deriving DecidableEq, BEq

/-- The persisted session map (`HashMap<String, VmSession>`). -/
def SessionMap : Type := List (String × VmSession)

deriving instance DecidableEq for SessionMap

deriving instance BEq for SessionMap

/-- Outcome of a session-map operation: the returned value and the session map
after the call (each mutation is followed by `save_sessions`, so the final map
is also the persisted one). -/
structure SessionOutcome : Type where
  result : Except VortexError Unit
  sessions : SessionMap
  deriving DecidableEq, BEq

/-- The `"Session {id} not found"` error used by every session operation. -/
def sessionNotFound (session_id : String) : VortexError :=
  .vmError ("Session " ++ session_id ++ " not found")

/-- `SessionManager::pause_session`: looks the session up and unconditionally
sets its state to `Paused` (krunvm has no native pause; state only). -/
def pause_session (sessions : SessionMap) (session_id : String) :
    SessionOutcome :=
  match lookupA sessions session_id with
  | none => ⟨.error (sessionNotFound session_id), sessions⟩
  | some s =>
    ⟨.ok (), insertA sessions session_id { s with state := .paused }⟩

/-- `SessionManager::resume_session`: looks the session up and unconditionally
sets its state to `Detached`. -/
def resume_session (sessions : SessionMap) (session_id : String) :
    SessionOutcome :=
  match lookupA sessions session_id with
  | none => ⟨.error (sessionNotFound session_id), sessions⟩
  | some s =>
    ⟨.ok (), insertA sessions session_id { s with state := .detached }⟩

/-- `SessionManager::stop_session`: the Lifecycle Manager `stop` result
(`vmStop`) is only logged on failure; the session is marked `Stopped` and the
call succeeds either way. -/
def stop_session (sessions : SessionMap) (session_id : String)
    (vmStop : Except VortexError Unit) : SessionOutcome :=
  match lookupA sessions session_id with
  | none => ⟨.error (sessionNotFound session_id), sessions⟩
  | some s =>
    -- `if let Err(e) = self.vm_manager.stop(..)` only emits a warning
    let _ := vmStop
    ⟨.ok (), insertA sessions session_id { s with state := .stopped }⟩

/-- `SessionManager::detach_session`: unconditional transition to `Detached`
for a known session id. -/
def detach_session (sessions : SessionMap) (session_id : String) :
    SessionOutcome :=
  match lookupA sessions session_id with
  | none => ⟨.error (sessionNotFound session_id), sessions⟩
  | some s =>
    ⟨.ok (), insertA sessions session_id { s with state := .detached }⟩

/-- `SessionManager::delete_session`: removes the record, then best-effort
`cleanup(vm_id)` (`vmCleanup`, failure only logged), then persists. -/
def delete_session (sessions : SessionMap) (session_id : String)
    (vmCleanup : Except VortexError Unit) : SessionOutcome :=
  match lookupA sessions session_id with
  | none => ⟨.error (sessionNotFound session_id), sessions⟩
  | some _ =>
    let _ := vmCleanup
    ⟨.ok (), eraseA sessions session_id⟩

/-- Outcome of `SessionManager::attach_session`: the returned value, the final
session map, and the successive maps written by `save_sessions` (in order). -/
structure AttachOutcome : Type where
  result : Except VortexError Unit
  sessions : SessionMap
  persisted : List SessionMap
  deriving DecidableEq, BEq

/-- `SessionManager::attach_session`.  From `Detached`/`Running` it persists
the session as `Attached{client_pid}` with `last_attached = now`, then runs
the blocking Lifecycle Manager attach (`vmAttach`); on success it persists
the original pre-attach session record with its state set to `Detached`
(note: built from the pre-attach `session` value, so `last_attached` reverts
to its pre-attach value).  A session already `Attached` yields the
"already attached" error; other states are rejected. -/
def attach_session (sessions : SessionMap) (session_id : String)
    (client_pid : Nat) (now : Nat) (vmAttach : Except VortexError Unit) :
    AttachOutcome :=
  match lookupA sessions session_id with
  | none => ⟨.error (sessionNotFound session_id), sessions, []⟩
  | some s =>
    match s.state with
    | .detached | .running =>
      let updated := { s with state := .attached client_pid,
                              last_attached := some now }
      let m₁ := insertA sessions session_id updated
      match vmAttach with
      | .error e => ⟨.error e, m₁, [m₁]⟩
      | .ok _ =>
        let detached := { s with state := .detached }
        let m₂ := insertA m₁ session_id detached
        ⟨.ok (), m₂, [m₁, m₂]⟩
    | .attached _ =>
      ⟨.error (.vmError ("Session " ++ session_id ++ " is already attached")),
        sessions, []⟩
    | st =>
      ⟨.error (.vmError ("Cannot attach to session " ++ session_id ++
        " in state " ++ st.debugFmt)), sessions, []⟩

/-- `DevTemplate` from `src/core/templates.rs`. -/
structure DevTemplate : Type where
  name : String
  description : String
  base_image : String
  tools : List String
  environment : List (String × String)
  startup_commands : List String
  default_workdir : String
  ports : List String
  extensions : List String
  packages : List (String × List String)
  deriving DecidableEq, BEq

/-- Rust `str::contains(char)`: whether the character occurs in the string
(expressed over the underlying character list so it evaluates by `decide`). -/
def strContainsChar (s : String) (c : Char) : Bool := s.data.contains c

/-- The shell metacharacters rejected by `template_to_vm_spec`
(`& | ; backtick $ ( ) < > newline carriage-return`). -/
def shellMetaChars : String := "&|;\x60$()<>\n\r"

/-- Whether a command contains any forbidden shell metacharacter — the
`command.contains('&') || ...` chain from `template_to_vm_spec`. -/
def hasForbiddenChar (command : String) : Bool :=
  shellMetaChars.data.any (fun c => strContainsChar command c)

/-- Rust `Vec::join(sep)` on strings. -/
def joinSep (sep : String) : List String → String
  | [] => ""
  | [c] => c
  | c :: rest => c ++ sep ++ joinSep sep rest

/-- Rust `str::split(sep).collect::<Vec<_>>()` on the character list. -/
def splitOnChar (sep : Char) : List Char → List (List Char)
  | [] => [[]]
  | c :: rest =>
    match splitOnChar sep rest with
    | [] => [[c]]
    | h :: t => if c = sep then [] :: h :: t else (c :: h) :: t

/-- Rust `str::parse::<u16>()`: optional leading `+`, then one or more ASCII
digits, value within `u16` range. -/
def parseU16 (s : String) : Option Nat :=
  let ds := match s.data with
            | '+' :: rest => rest
            | l => l
  if ds ≠ [] ∧ ds.all Char.isDigit then
    let n := ds.foldl (fun acc c => acc * 10 + (c.toNat - 48)) 0
    if n < 65536 then some n else none
  else none

/-- The `"host:guest"` port-string parsing loop of `template_to_vm_spec`:
split on `:`, require exactly two parts, parse each as `u16`, insert into the
port map; the first malformed entry aborts with `InvalidInput{field:"ports"}`. -/
def parsePorts : List String → List (Nat × Nat) →
    Except VortexError (List (Nat × Nat))
  | [], acc => .ok acc
  | p :: rest, acc =>
    let parts := splitOnChar ':' p.data
    if parts.length ≠ 2 then
      .error (.invalidInput "ports"
        ("Invalid port mapping format \x27" ++ p ++ "\x27, expected \x27host:guest\x27"))
    else
      match parseU16 (String.mk (parts.get! 0)) with
      | none => .error (.invalidInput "ports" ("Invalid host port in \x27" ++ p ++ "\x27"))
      | some host =>
        match parseU16 (String.mk (parts.get! 1)) with
        | none => .error (.invalidInput "ports" ("Invalid guest port in \x27" ++ p ++ "\x27"))
        | some guest => parsePorts rest (insertA acc host guest)

/-- `DevEnvironmentManager::template_to_vm_spec`.  `templates` is the
manager's catalog.  Rejects any template startup command containing a
forbidden shell metacharacter, then assembles the combined startup command
and the spec (2048 MiB, 2 cpus, parsed template ports). -/
def template_to_vm_spec (templates : List (String × DevTemplate))
    (template_name : String) (custom_workdir : Option String) :
    Except VortexError VmSpec :=
  match lookupA templates template_name with
  | none => .error (.templateNotFound template_name)
  | some template =>
    let workdir := custom_workdir.getD template.default_workdir
    match template.startup_commands.find? hasForbiddenChar with
    | some command =>
      .error (.invalidInput "startup_commands"
        ("Startup command contains forbidden shell metacharacters: " ++ command))
    | none =>
      let setup_commands := joinSep " && " template.startup_commands
      let full_command := "mkdir -p " ++ workdir ++ " && cd " ++ workdir ++
        " && " ++ setup_commands ++
        " && echo \x27Vortex dev environment ready!\x27 && exec bash"
      match parsePorts template.ports [] with
      | .error e => .error e
      | .ok parsed_ports =>
        .ok { image := template.base_image
              memory := 2048
              cpus := 2
              ports := parsed_ports
              volumes := []
              environment := template.environment
              command := some full_command
              labels := [("vortex.dev-env", "true"),
                         ("vortex.template", template_name)]
              network_config := none
              resource_limits := ResourceLimits.default
              backend := none }

/-- `VortexWorkspaceConfig` from `src/core/workspace.rs`. -/
structure VortexWorkspaceConfig : Type where
  name : String
  template : String
  created_at : Nat
  last_used : Nat
  custom_commands : List String
  preferred_workdir : String
  environment_vars : List (String × String)
  port_forwards : List Nat
  devcontainer_source : Option String
  deriving DecidableEq, BEq

/-- `Workspace` from `src/core/workspace.rs` (path as string). -/
structure Workspace : Type where
  id : String
  name : String
  path : String
  config : VortexWorkspaceConfig
  deriving DecidableEq, BEq

/-- `WorkspaceManager::workspace_to_vm_spec`: derives the spec from the base
template and the workspace config; template startup commands and workspace
custom commands are concatenated and joined into the startup command with no
validation of any kind. -/
def workspace_to_vm_spec (workspace : Workspace) (base_template : DevTemplate) :
    Except VortexError VmSpec :=
  let volumes := insertA [] workspace.path workspace.config.preferred_workdir
  let ports := workspace.config.port_forwards.foldl
    (fun acc p => insertA acc p p) []
  let environment := workspace.config.environment_vars.foldl
    (fun acc kv => insertA acc kv.1 kv.2) base_template.environment
  let startup_commands :=
    base_template.startup_commands ++ workspace.config.custom_commands
  let setup_commands := joinSep " && " startup_commands
  let full_command := "cd " ++ workspace.config.preferred_workdir ++ " && " ++
    setup_commands ++ " && echo \x27Vortex workspace \"" ++ workspace.name ++
    "\" ready!\x27 && exec bash"
  .ok { image := base_template.base_image
        memory := 2048
        cpus := 2
        ports := ports
        volumes := volumes
        environment := environment
        command := some full_command
        labels := [("vortex.workspace", workspace.id),
                   ("vortex.workspace-name", workspace.name)]
        network_config := none
        resource_limits := ResourceLimits.default
        backend := none }

/-- `normalize_image_name` from `src/core/backend.rs` (identical copy in
`src/vm.rs`): fixed aliases, then tagged-image handling, then the bare-name
default. -/
def normalize_image_name (image : String) : String :=
  if image = "alpine" then "docker.io/library/alpine:latest"
  else if image = "ubuntu" then "docker.io/library/ubuntu:latest"
  else if image = "debian" then "docker.io/library/debian:latest"
  else if strContainsChar image ':' then
    if strContainsChar image '/' then image
    else "docker.io/library/" ++ image
  else "docker.io/library/" ++ image ++ ":latest"

/-- The information `KrunvmBackend::attach` extracts from the child process
`ExitStatus`: `exit_status.code()` and (on Unix) `exit_status.signal()`. -/
structure ExitStatusInfo : Type where
  exitCode : Option Int
  signal : Option Int
  deriving DecidableEq, BEq

/-- The result classification at the end of `KrunvmBackend::attach`: exit
codes 0, 130 (interrupt convention) and 129 (hangup convention) are success;
with no exit code, termination signals 2 (SIGINT) and 15 (SIGTERM) are
success, other signals are failures, and an unknown termination is success. -/
def krunvmAttachResult (st : ExitStatusInfo) : Except VortexError Unit :=
  match st.exitCode with
  | some code =>
    if code = 0 then .ok ()
    else if code = 130 then .ok ()
    else if code = 129 then .ok ()
    else .error (.vmError
      ("Interactive session ended with exit code: " ++ toString code))
  | none =>
    match st.signal with
    | some signal =>
      if signal = 2 then .ok ()
      else if signal = 15 then .ok ()
      else .error (.vmError
        ("Interactive session terminated by signal: " ++ toString signal))
    | none => .ok ()

/-- The attach-success predicate in the words of the specification (§4.1 /
claim C6): the child exits with code 0, or is terminated by a normal
termination signal — interrupt (2), hangup (1) or terminate (15). -/
def specAttachSuccess (st : ExitStatusInfo) : Bool :=
  st.exitCode == some 0 ||
    (st.exitCode == none &&
      (st.signal == some 1 || st.signal == some 2 || st.signal == some 15))

/-! Helper lemmas about the association-list map operations. -/

theorem lookupA_insertA_self {κ α : Type} [DecidableEq κ]
    (m : List (κ × α)) (k : κ) (v : α) : lookupA (insertA m k v) k = some v := by
  induction m with
  | nil => simp [insertA, lookupA]
  | cons hd tl ih =>
    obtain ⟨k₁, v₁⟩ := hd
    by_cases h : k₁ = k
    · simp [insertA, lookupA, h]
    · simp [insertA, lookupA, h, ih]

theorem insertA_insertA_same {κ α : Type} [DecidableEq κ]
    (m : List (κ × α)) (k : κ) (v w : α) :
    insertA (insertA m k v) k w = insertA m k w := by
  induction m with
  | nil => simp [insertA]
  | cons hd tl ih =>
    obtain ⟨k₁, v₁⟩ := hd
    by_cases h : k₁ = k
    · simp [insertA, h]
    · simp [insertA, h, ih]

theorem lookupA_eq_none_of_not_mem {κ α : Type} [DecidableEq κ]
    (m : List (κ × α)) (k : κ) (h : k ∉ m.map Prod.fst) : lookupA m k = none := by
  induction m with
  | nil => simp [lookupA]
  | cons hd tl ih =>
    obtain ⟨k₁, v₁⟩ := hd
    simp only [List.map_cons, List.mem_cons, not_or] at h
    have hk : k₁ ≠ k := fun he => h.1 he.symm
    simp [lookupA, hk, ih h.2]

theorem keys_insertA {κ α : Type} [DecidableEq κ]
    (m : List (κ × α)) (k : κ) (v : α) :
    (insertA m k v).map Prod.fst =
      if k ∈ m.map Prod.fst then m.map Prod.fst
      else m.map Prod.fst ++ [k] := by
  induction m with
  | nil => simp [insertA]
  | cons hd tl ih =>
    obtain ⟨k₁, v₁⟩ := hd
    by_cases he : k₁ = k
    · subst he
      simp [insertA]
    · have hne : ¬ k = k₁ := fun h => he h.symm
      by_cases hm : k ∈ tl.map Prod.fst
      · simp [insertA, he, hne, hm, ih]
      · simp [insertA, he, hne, hm, ih]

theorem keys_insertA_nodup {κ α : Type} [DecidableEq κ]
    (m : List (κ × α)) (k : κ) (v : α) (h : (m.map Prod.fst).Nodup) :
    ((insertA m k v).map Prod.fst).Nodup := by
  rw [keys_insertA]
  by_cases hm : k ∈ m.map Prod.fst
  · simpa [hm] using h
  · simp only [hm, if_false, List.nodup_append]
    refine ⟨h, List.nodup_singleton k, fun a ha hak => ?_⟩
    simp only [List.mem_singleton] at hak
    exact hm (hak ▸ ha)

theorem lookupA_eraseA_self {κ α : Type} [DecidableEq κ]
    (m : List (κ × α)) (k : κ) (h : (m.map Prod.fst).Nodup) :
    lookupA (eraseA m k) k = none := by
  induction m with
  | nil => simp [eraseA, lookupA]
  | cons hd tl ih =>
    obtain ⟨k₁, v₁⟩ := hd
    simp only [List.map_cons, List.nodup_cons] at h
    by_cases he : k₁ = k
    · subst he
      simp only [eraseA, if_pos rfl]
      exact lookupA_eq_none_of_not_mem tl k₁ h.1
    · simp [eraseA, lookupA, he, ih h.2]

/-! Concrete sample values used by counterexamples and witnesses. -/

/-- A small well-formed spec (image `alpine`, 256 MiB, 1 cpu). -/
def sampleSpec : VmSpec :=
  ⟨"alpine", 256, 1, [], [], [], none, [], none, ResourceLimits.default, none⟩

/-- A sample spec with `memory = 0`. -/
def memZeroSpec : VmSpec := { sampleSpec with memory := 0 }

/-- A sample registry record in state `Running`. -/
def sampleVm : VmInstance := ⟨"vortex-a", sampleSpec, .running, 0, 0⟩

/-- A sample session in the given state (non-persistent, never attached). -/
def mkSession (st : SessionState) : VmSession :=
  ⟨"s1", none, "vortex-1", st, 0, none, false, sampleSpec, []⟩

/-- Claim C4: with a backend resolved, `create` on a spec with `memory = 0`
fails with `InvalidInput{field:"memory"}` (displayed as
`Invalid input: memory - Memory must be greater than 0`), `cpus = 0` fails
with `InvalidInput{field:"cpus"}`, and `memory > max_memory` fails with
`ResourceLimitExceeded`; in every such case the backend `create` is never
invoked, no event is emitted, and the registry is unchanged. -/
theorem c4_spec_validation :
    (∀ (registry : List (String × VmInstance)) (spec : VmSpec)
        (vm_id : String) (bc : Except VortexError Unit) (now : Nat),
      spec.memory = 0 →
      VmManager.create registry spec vm_id true bc now =
        ⟨.error (.invalidInput "memory" "Memory must be greater than 0"),
          registry, [], false⟩) ∧
    (∀ (registry : List (String × VmInstance)) (spec : VmSpec)
        (vm_id : String) (bc : Except VortexError Unit) (now : Nat),
      spec.memory ≠ 0 → spec.cpus = 0 →
      VmManager.create registry spec vm_id true bc now =
        ⟨.error (.invalidInput "cpus" "CPUs must be greater than 0"),
          registry, [], false⟩) ∧
    (∀ (registry : List (String × VmInstance)) (spec : VmSpec)
        (vm_id : String) (bc : Except VortexError Unit) (now mm : Nat),
      spec.memory ≠ 0 → spec.cpus ≠ 0 →
      spec.resource_limits.max_memory = some mm → spec.memory > mm →
      VmManager.create registry spec vm_id true bc now =
        ⟨.error (.resourceLimitExceeded
            ("memory: " ++ toString spec.memory ++ " > " ++ toString mm)),
          registry, [], false⟩) ∧
    (VortexError.invalidInput "memory" "Memory must be greater than 0").display =
      "Invalid input: memory - Memory must be greater than 0" := by
  refine ⟨?_, ?_, ?_, rfl⟩
  · intro registry spec vm_id bc now hmem
    simp [VmManager.create, validate_spec, hmem]
  · intro registry spec vm_id bc now hmem hcpu
    simp [VmManager.create, validate_spec, hmem, hcpu]
  · intro registry spec vm_id bc now mm hmem hcpu hlim hgt
    simp [VmManager.create, validate_spec, hmem, hcpu, hlim, hgt]

/-- Witness for C4: a concrete `memory = 0` spec is rejected without backend
interaction or registry mutation. -/
theorem c4_spec_validation_witness :
    VmManager.create [] memZeroSpec "vortex-9" true (.ok ()) 0 =
      ⟨.error (.invalidInput "memory" "Memory must be greater than 0"),
        [], [], false⟩ :=
  c4_spec_validation.1 [] memZeroSpec "vortex-9" (.ok ()) 0 rfl

/-- Claim C5 counterexample: a successful `cleanup` of a registered VM emits
zero events, hence zero terminal events — not exactly one. -/
theorem c5_counterexample :
    (VmManager.cleanup [("vortex-a", sampleVm)] "vortex-a" true []
        (.ok ()) 0).result = .ok () ∧
    (VmManager.cleanup [("vortex-a", sampleVm)] "vortex-a" true []
        (.ok ()) 0).events = [] ∧
    countTerminal (VmManager.cleanup [("vortex-a", sampleVm)] "vortex-a" true []
        (.ok ()) 0).events = 0 :=
  ⟨rfl, rfl, rfl⟩

/-- Claim C5 as amended: with a backend resolved, `create` emits exactly one
terminal event iff the spec validates (and none on validation failure or when
no backend resolves); `stop` emits exactly one terminal event iff it
succeeds; `cleanup` never emits any event. -/
theorem c5_terminal_events :
    (∀ (registry : List (String × VmInstance)) (spec : VmSpec)
        (vm_id : String) (bc : Except VortexError Unit) (now : Nat),
      countTerminal (VmManager.create registry spec vm_id true bc now).events =
        (if validate_spec spec = .ok () then 1 else 0)) ∧
    (∀ (registry : List (String × VmInstance)) (spec : VmSpec)
        (vm_id : String) (bc : Except VortexError Unit) (now : Nat),
      (VmManager.create registry spec vm_id false bc now).events = []) ∧
    (∀ (registry : List (String × VmInstance)) (vm_id : String) (av : Bool)
        (inv : List String) (bs : Except VortexError Unit) (now : Nat),
      countTerminal (VmManager.stop registry vm_id av inv bs now).events =
        (if (VmManager.stop registry vm_id av inv bs now).result = .ok ()
         then 1 else 0)) ∧
    (∀ (registry : List (String × VmInstance)) (vm_id : String) (av : Bool)
        (inv : List String) (bc : Except VortexError Unit) (now : Nat),
      (VmManager.cleanup registry vm_id av inv bc now).events = []) := by
  refine ⟨?_, ?_, ?_, ?_⟩
  · intro registry spec vm_id bc now
    cases hv : validate_spec spec with
    | error e =>
      simp [VmManager.create, hv, countTerminal]
    | ok u =>
      cases bc <;>
        simp [VmManager.create, hv, countTerminal, VmEvent.isTerminal]
  · intro registry spec vm_id bc now
    simp [VmManager.create]
  · intro registry vm_id av inv bs now
    cases hl : lookupA registry vm_id with
    | some vm =>
      cases bs <;>
        simp [VmManager.stop, hl, countTerminal, VmEvent.isTerminal]
    | none =>
      cases av with
      | false => simp [VmManager.stop, hl, countTerminal]
      | true =>
        by_cases hin : vm_id ∈ inv
        · cases bs <;>
            simp [VmManager.stop, hl, hin, countTerminal, VmEvent.isTerminal]
        · simp [VmManager.stop, hl, hin, countTerminal]
  · intro registry vm_id av inv bc now
    cases hl : lookupA registry vm_id with
    | some vm => cases bc <;> simp [VmManager.cleanup, hl]
    | none =>
      cases av with
      | false => simp [VmManager.cleanup, hl]
      | true =>
        by_cases hin : vm_id ∈ inv
        · cases bc <;> simp [VmManager.cleanup, hl, hin]
        · simp [VmManager.cleanup, hl, hin]

/-- Claim C7 counterexample: `cleanup` removes the registry record before the
backend call, so when the backend cleanup fails the record is already gone. -/
theorem c7_counterexample :
    (VmManager.cleanup [("vortex-a", sampleVm)] "vortex-a" true []
        (.error (.vmError "boom")) 0).result = .error (.vmError "boom") ∧
    (VmManager.cleanup [("vortex-a", sampleVm)] "vortex-a" true []
        (.error (.vmError "boom")) 0).registry = [] ∧
    lookupA (VmManager.cleanup [("vortex-a", sampleVm)] "vortex-a" true []
        (.error (.vmError "boom")) 0).registry "vortex-a" = none :=
  ⟨rfl, rfl, rfl⟩

/-- Claim C7 as amended: `stop` mutates the registry only after the backend
call (a failing backend stop leaves the registry unchanged; a successful stop
of a registered VM marks it `Stopped`), while `cleanup` removes the in-memory
record before the backend call, on every path and regardless of the backend
result. -/
theorem c7_registry_mutation :
    (∀ (registry : List (String × VmInstance)) (vm_id : String) (av : Bool)
        (inv : List String) (e : VortexError) (now : Nat),
      (VmManager.stop registry vm_id av inv (.error e) now).registry =
        registry) ∧
    (∀ (registry : List (String × VmInstance)) (vm_id : String)
        (vm : VmInstance) (av : Bool) (inv : List String) (now : Nat),
      lookupA registry vm_id = some vm →
      VmManager.stop registry vm_id av inv (.ok ()) now =
        ⟨.ok (),
          insertA registry vm_id { vm with state := .stopped, updated_at := now },
          [.stopped vm_id], true⟩) ∧
    (∀ (registry : List (String × VmInstance)) (vm_id : String) (av : Bool)
        (inv : List String) (bc : Except VortexError Unit) (now : Nat),
      (VmManager.cleanup registry vm_id av inv bc now).registry =
        eraseA registry vm_id) := by
  refine ⟨?_, ?_, ?_⟩
  · intro registry vm_id av inv e now
    cases hl : lookupA registry vm_id with
    | some vm => simp [VmManager.stop, hl]
    | none =>
      cases av with
      | false => simp [VmManager.stop, hl]
      | true =>
        by_cases hin : vm_id ∈ inv
        · simp [VmManager.stop, hl, hin]
        · simp [VmManager.stop, hl, hin]
  · intro registry vm_id vm av inv now hl
    simp [VmManager.stop, hl]
  · intro registry vm_id av inv bc now
    cases hl : lookupA registry vm_id with
    | some vm => cases bc <;> simp [VmManager.cleanup, hl]
    | none =>
      cases av with
      | false => simp [VmManager.cleanup, hl]
      | true =>
        by_cases hin : vm_id ∈ inv
        · cases bc <;> simp [VmManager.cleanup, hl, hin]
        · simp [VmManager.cleanup, hl, hin]

/-- Witness for the amended C7: a concrete successful stop of a registered VM
marks the record `Stopped` after the backend call. -/
theorem c7_registry_mutation_witness :
    VmManager.stop [("vortex-a", sampleVm)] "vortex-a" true [] (.ok ()) 7 =
      ⟨.ok (),
        insertA [("vortex-a", sampleVm)] "vortex-a"
          { sampleVm with state := .stopped, updated_at := 7 },
        [.stopped "vortex-a"], true⟩ :=
  c7_registry_mutation.2.1 [("vortex-a", sampleVm)] "vortex-a" sampleVm true [] 7 rfl

/-- Claim C2 counterexample: `pause_session` succeeds on a `Stopped` session
(setting it `Paused`) and `resume_session` succeeds on a `Stopped` session
(setting it `Detached`), although the §4.3 matrix lists no pause transition
from `Stopped` and allows resume only from `Paused`. -/
theorem c2_counterexample :
    pause_session [("s1", mkSession .stopped)] "s1" =
      ⟨.ok (), [("s1", mkSession .paused)]⟩ ∧
    resume_session [("s1", mkSession .stopped)] "s1" =
      ⟨.ok (), [("s1", mkSession .detached)]⟩ :=
  ⟨rfl, rfl⟩

/-- Claim C2 as amended: `pause_session` and `resume_session` do not check the
current state at all — for every known session id they succeed from any state,
setting `Paused` respectively `Detached`; only an unknown id fails. -/
theorem c2_pause_resume_unguarded :
    ∀ (sessions : SessionMap) (session_id : String),
      (lookupA sessions session_id = none →
        pause_session sessions session_id =
          ⟨.error (sessionNotFound session_id), sessions⟩ ∧
        resume_session sessions session_id =
          ⟨.error (sessionNotFound session_id), sessions⟩) ∧
      (∀ s, lookupA sessions session_id = some s →
        pause_session sessions session_id =
          ⟨.ok (), insertA sessions session_id { s with state := .paused }⟩ ∧
        resume_session sessions session_id =
          ⟨.ok (), insertA sessions session_id { s with state := .detached }⟩) := by
  intro sessions session_id
  constructor
  · intro hl
    exact ⟨by simp [pause_session, hl], by simp [resume_session, hl]⟩
  · intro s hl
    exact ⟨by simp [pause_session, hl], by simp [resume_session, hl]⟩

/-- Witness for the amended C2: pausing a concrete `Error`-state session
succeeds and sets it `Paused`. -/
theorem c2_pause_resume_unguarded_witness :
    pause_session [("s1", mkSession (.error "boom"))] "s1" =
      ⟨.ok (), insertA [("s1", mkSession (.error "boom"))] "s1"
        { mkSession (.error "boom") with state := .paused }⟩ :=
  ((c2_pause_resume_unguarded [("s1", mkSession (.error "boom"))] "s1").2
    (mkSession (.error "boom")) rfl).1

/-- Claim C3 (code bug) evaluated at the failing input: attaching a `Detached`
session whose `last_attached` is null first persists it as
`Attached{client_pid}` with `last_attached = now`, but when the blocking
attach returns, the record persisted as `Detached` is rebuilt from the
pre-attach session value, so `last_attached` reverts to null instead of
keeping the attach time. -/
theorem c3_last_attached_reverts :
    (attach_session [("s1", mkSession .detached)] "s1" 1234 1000
        (.ok ())).result = .ok () ∧
    (attach_session [("s1", mkSession .detached)] "s1" 1234 1000
        (.ok ())).persisted.head? =
      some [("s1",
        { mkSession .detached with
            state := .attached 1234, last_attached := some 1000 })] ∧
    lookupA (attach_session [("s1", mkSession .detached)] "s1" 1234 1000
        (.ok ())).sessions "s1" = some (mkSession .detached) ∧
    (lookupA (attach_session [("s1", mkSession .detached)] "s1" 1234 1000
        (.ok ())).sessions "s1").map VmSession.last_attached = some none :=
  ⟨rfl, rfl, rfl, rfl⟩

/-- Claim C9: `stop_session` on a known session succeeds and marks it
`Stopped` regardless of the Lifecycle Manager stop result, and stopping again
(now from `Stopped`) succeeds and leaves the map unchanged — stop is
idempotent. -/
theorem c9_stop_idempotent :
    ∀ (sessions : SessionMap) (session_id : String) (s : VmSession)
      (r₁ r₂ : Except VortexError Unit),
      lookupA sessions session_id = some s →
      stop_session sessions session_id r₁ =
        ⟨.ok (), insertA sessions session_id { s with state := .stopped }⟩ ∧
      stop_session (insertA sessions session_id { s with state := .stopped })
          session_id r₂ =
        ⟨.ok (), insertA sessions session_id { s with state := .stopped }⟩ := by
  intro sessions session_id s r₁ r₂ hl
  constructor
  · simp [stop_session, hl]
  · have hl₂ := lookupA_insertA_self sessions session_id
      { s with state := .stopped }
    simp [stop_session, hl₂, insertA_insertA_same]

/-- Witness for C9: a concrete `Detached` session is stopped (with a failing
backend stop, which is ignored), and a second stop is a successful no-op. -/
theorem c9_stop_idempotent_witness :
    stop_session [("s1", mkSession .detached)] "s1" (.error (.vmError "x")) =
      ⟨.ok (), insertA [("s1", mkSession .detached)] "s1"
        { mkSession .detached with state := .stopped }⟩ ∧
    stop_session (insertA [("s1", mkSession .detached)] "s1"
        { mkSession .detached with state := .stopped }) "s1" (.ok ()) =
      ⟨.ok (), insertA [("s1", mkSession .detached)] "s1"
        { mkSession .detached with state := .stopped }⟩ :=
  c9_stop_idempotent [("s1", mkSession .detached)] "s1" (mkSession .detached)
    (.error (.vmError "x")) (.ok ()) rfl

/-- A minimal template with no startup commands. -/
def c1Template : DevTemplate :=
  ⟨"empty", "", "alpine", [], [], [], "/workspace", [], [], []⟩

/-- A workspace whose custom-commands list carries shell metacharacters. -/
def c1Workspace : Workspace :=
  ⟨"w-id", "w", "/tmp/w",
    ⟨"w", "empty", 0, 0, ["echo hi && rm -rf /"], "/workspace", [], [], none⟩⟩

/-- A catalog with a template whose startup command carries metacharacters. -/
def c1BadCatalog : List (String × DevTemplate) :=
  [("bad", { c1Template with
              name := "bad", startup_commands := ["echo hi && rm -rf /"] })]

/-- Claim C1 counterexample: `workspace_to_vm_spec` performs no shell
metacharacter validation — a workspace custom command containing `&` is
incorporated verbatim into the produced spec's startup command and the
translation succeeds instead of failing with
`InvalidInput{field:"startup_commands"}`. -/
theorem c1_counterexample :
    hasForbiddenChar "echo hi && rm -rf /" = true ∧
    workspace_to_vm_spec c1Workspace c1Template =
      .ok { image := "alpine", memory := 2048, cpus := 2, ports := [],
            volumes := [("/tmp/w", "/workspace")], environment := [],
            command := some ("cd /workspace && echo hi && rm -rf / && " ++
              "echo \x27Vortex workspace \"w\" ready!\x27 && exec bash"),
            labels := [("vortex.workspace", "w-id"),
                       ("vortex.workspace-name", "w")],
            network_config := none, resource_limits := ResourceLimits.default,
            backend := none } ∧
    hasForbiddenChar ("cd /workspace && echo hi && rm -rf / && " ++
      "echo \x27Vortex workspace \"w\" ready!\x27 && exec bash") = true :=
  ⟨by decide, rfl, by decide⟩

/-- Claim C1 as amended: `template_to_vm_spec` rejects any template whose
startup-command list contains a forbidden shell metacharacter with
`InvalidInput{field:"startup_commands"}` (and a successful template
translation implies every template startup command is clean), but
`workspace_to_vm_spec` applies no such guard: it succeeds for every
workspace and template. -/
theorem c1_shell_guard :
    (∀ (templates : List (String × DevTemplate)) (name : String)
        (wd : Option String) (t : DevTemplate) (c : String),
      lookupA templates name = some t →
      t.startup_commands.find? hasForbiddenChar = some c →
      template_to_vm_spec templates name wd =
        .error (.invalidInput "startup_commands"
          ("Startup command contains forbidden shell metacharacters: " ++ c)) ∧
      c ∈ t.startup_commands ∧ hasForbiddenChar c = true) ∧
    (∀ (templates : List (String × DevTemplate)) (name : String)
        (wd : Option String) (spec : VmSpec) (t : DevTemplate),
      template_to_vm_spec templates name wd = .ok spec →
      lookupA templates name = some t →
      ∀ c ∈ t.startup_commands, hasForbiddenChar c = false) ∧
    (∀ (w : Workspace) (t : DevTemplate),
      ∃ spec, workspace_to_vm_spec w t = .ok spec) := by
  refine ⟨?_, ?_, ?_⟩
  · intro templates name wd t c hl hfind
    exact ⟨by simp [template_to_vm_spec, hl, hfind],
      List.mem_of_find?_eq_some hfind, List.find?_some hfind⟩
  · intro templates name wd spec t hok hl c hc
    cases hfind : t.startup_commands.find? hasForbiddenChar with
    | some c₂ => simp [template_to_vm_spec, hl, hfind] at hok
    | none =>
      have := List.find?_eq_none.mp hfind c hc
      simpa using this
  · intro w t
    exact ⟨_, rfl⟩

/-- Witness for the amended C1: a concrete bad template is rejected while a
concrete workspace with the same bad command translates successfully. -/
theorem c1_shell_guard_witness :
    template_to_vm_spec c1BadCatalog "bad" none =
      .error (.invalidInput "startup_commands"
        "Startup command contains forbidden shell metacharacters: echo hi && rm -rf /") ∧
    (∃ spec, workspace_to_vm_spec c1Workspace c1Template = .ok spec) :=
  ⟨(c1_shell_guard.1 c1BadCatalog "bad" none
      { c1Template with
          name := "bad", startup_commands := ["echo hi && rm -rf /"] }
      "echo hi && rm -rf /" rfl (by decide)).1,
    c1_shell_guard.2.2 c1Workspace c1Template⟩

/-- Claim C6 counterexample: a child terminated by the hangup signal
(signal 1) is a failure in the code, although the claim counts hangup among
the normal termination signals. -/
theorem c6_counterexample :
    specAttachSuccess ⟨none, some 1⟩ = true ∧
    krunvmAttachResult ⟨none, some 1⟩ =
      .error (.vmError "Interactive session terminated by signal: 1") :=
  ⟨rfl, rfl⟩

/-- Claim C6 as amended: the interactive attach succeeds exactly when the
child exits with code 0, 129 or 130, or is terminated by signal 2 (interrupt)
or 15 (terminate), or terminates with neither an exit code nor a reported
signal; termination by the hangup signal itself (signal 1) is a failure. -/
theorem c6_attach_success_iff :
    ∀ st : ExitStatusInfo,
      krunvmAttachResult st = .ok () ↔
        (st.exitCode = some 0 ∨ st.exitCode = some 129 ∨
          st.exitCode = some 130 ∨
          (st.exitCode = none ∧
            (st.signal = some 2 ∨ st.signal = some 15 ∨ st.signal = none))) := by
  intro st
  obtain ⟨c, s⟩ := st
  cases c with
  | some code =>
    simp only [krunvmAttachResult]
    split_ifs with h0 h130 h129 <;> simp_all
  | none =>
    cases s with
    | some signal =>
      simp only [krunvmAttachResult]
      split_ifs with h2 h15 <;> simp_all
    | none => simp [krunvmAttachResult]

/-- Claim C8 counterexample: a string containing a slash but no tag does not
pass through unchanged — it is prefixed with the default registry library
namespace and given the `latest` tag. -/
theorem c8_counterexample :
    strContainsChar "x/y" '/' = true ∧
    normalize_image_name "x/y" = "docker.io/library/x/y:latest" ∧
    "docker.io/library/x/y:latest" ≠ "x/y" :=
  ⟨by decide, by decide, by decide⟩

/-- Claim C8 as amended: a string without a tag (no `:`), with or without a
slash, resolves to the default registry under the library namespace with tag
`latest`; a string with a tag and a slash passes through unchanged; a string
with a tag but no slash resolves to the default registry under the library
namespace keeping its tag. -/
theorem c8_normalize_cases :
    ∀ image : String,
      (strContainsChar image ':' = false →
        normalize_image_name image =
          "docker.io/library/" ++ image ++ ":latest") ∧
      (strContainsChar image ':' = true → strContainsChar image '/' = true →
        normalize_image_name image = image) ∧
      (strContainsChar image ':' = true → strContainsChar image '/' = false →
        normalize_image_name image = "docker.io/library/" ++ image) := by
  intro image
  by_cases h1 : image = "alpine"
  · subst h1
    exact ⟨fun _ => by decide, fun hc _ => absurd hc (by decide),
      fun hc _ => absurd hc (by decide)⟩
  by_cases h2 : image = "ubuntu"
  · subst h2
    exact ⟨fun _ => by decide, fun hc _ => absurd hc (by decide),
      fun hc _ => absurd hc (by decide)⟩
  by_cases h3 : image = "debian"
  · subst h3
    exact ⟨fun _ => by decide, fun hc _ => absurd hc (by decide),
      fun hc _ => absurd hc (by decide)⟩
  refine ⟨fun hc => ?_, fun hc hs => ?_, fun hc hs => ?_⟩
  · simp [normalize_image_name, h1, h2, h3, hc]
  · simp [normalize_image_name, h1, h2, h3, hc, hs]
  · simp [normalize_image_name, h1, h2, h3, hc, hs]

/-- Witness for the amended C8: a concrete slash-and-tag image passes
through, and a concrete tag-only image keeps its tag under the library
namespace. -/
theorem c8_normalize_cases_witness :
    normalize_image_name "x/y:z" = "x/y:z" ∧
    normalize_image_name "redis:7" = "docker.io/library/" ++ "redis:7" :=
  ⟨(c8_normalize_cases "x/y:z").2.1 (by decide) (by decide),
    (c8_normalize_cases "redis:7").2.2 (by decide) (by decide)⟩

/-- Claim C10: when the Lifecycle Manager attach fails, `attach_session`
propagates the error without restoring the session: the session stays
persisted as `Attached{client_pid}` (with `last_attached = now`), every
subsequent `attach_session` fails with the "already attached" error, and
each of detach/stop/pause/resume/delete moves the session out of `Attached`
(respectively `Detached`, `Stopped`, `Paused`, `Detached`, removed). -/
theorem c10_failed_attach_sticks :
    ∀ (sessions : SessionMap) (session_id : String) (s : VmSession)
      (client_pid now : Nat) (e : VortexError) (o : AttachOutcome),
      (sessions.map Prod.fst).Nodup →
      lookupA sessions session_id = some s →
      (s.state = .detached ∨ s.state = .running) →
      o = attach_session sessions session_id client_pid now (.error e) →
      o.result = .error e ∧
      lookupA o.sessions session_id =
        some { s with state := .attached client_pid,
                      last_attached := some now } ∧
      o.persisted = [o.sessions] ∧
      (∀ (pid₂ now₂ : Nat) (r₂ : Except VortexError Unit),
        (attach_session o.sessions session_id pid₂ now₂ r₂).result =
          .error (.vmError
            ("Session " ++ session_id ++ " is already attached"))) ∧
      (lookupA (detach_session o.sessions session_id).sessions
          session_id).map VmSession.state = some .detached ∧
      (∀ r : Except VortexError Unit,
        (lookupA (stop_session o.sessions session_id r).sessions
            session_id).map VmSession.state = some .stopped) ∧
      (lookupA (pause_session o.sessions session_id).sessions
          session_id).map VmSession.state = some .paused ∧
      (lookupA (resume_session o.sessions session_id).sessions
          session_id).map VmSession.state = some .detached ∧
      (∀ r : Except VortexError Unit,
        lookupA (delete_session o.sessions session_id r).sessions
          session_id = none) := by
  intro sessions session_id s client_pid now e o hnd hl hst ho
  have hcase : attach_session sessions session_id client_pid now (.error e) =
      ⟨.error e,
        insertA sessions session_id
          { s with state := .attached client_pid, last_attached := some now },
        [insertA sessions session_id
          { s with state := .attached client_pid,
                   last_attached := some now }]⟩ := by
    rcases hst with h | h <;> simp [attach_session, hl, h]
  subst ho
  rw [hcase]
  have hl₂ := lookupA_insertA_self sessions session_id
    { s with state := .attached client_pid, last_attached := some now }
  refine ⟨rfl, hl₂, rfl, ?_, ?_, ?_, ?_, ?_, ?_⟩
  · intro pid₂ now₂ r₂
    simp [attach_session, hl₂]
  · simp [detach_session, hl₂, lookupA_insertA_self]
  · intro r
    simp [stop_session, hl₂, lookupA_insertA_self]
  · simp [pause_session, hl₂, lookupA_insertA_self]
  · simp [resume_session, hl₂, lookupA_insertA_self]
  · intro r
    simp only [delete_session, hl₂]
    exact lookupA_eraseA_self _ session_id
      (keys_insertA_nodup sessions session_id _ hnd)

/-- Witness for C10: a concrete failed attach of a `Detached` session leaves
it `Attached{7}` and the error propagated. -/
theorem c10_failed_attach_sticks_witness :
    (attach_session [("s1", mkSession .detached)] "s1" 7 5
        (.error (.vmError "VM vortex-1 not found"))).result =
      .error (.vmError "VM vortex-1 not found") ∧
    lookupA (attach_session [("s1", mkSession .detached)] "s1" 7 5
        (.error (.vmError "VM vortex-1 not found"))).sessions "s1" =
      some { mkSession .detached with
               state := .attached 7, last_attached := some 5 } :=
  have h := c10_failed_attach_sticks [("s1", mkSession .detached)] "s1"
    (mkSession .detached) 7 5 (.vmError "VM vortex-1 not found")
    (attach_session [("s1", mkSession .detached)] "s1" 7 5
      (.error (.vmError "VM vortex-1 not found")))
    (by simp) rfl (Or.inl rfl) rfl
  ⟨h.1, h.2.1⟩
